import Mathlib

/-!
Shallow embedding of `pollen_plot.py`: a script that ensures a local data
folder holds Excel files (downloading and unzipping them otherwise), extracts
a (date, allergen) series from the Excel files whose name matches a city
filter, and plots weekly means of the allergen values.

Pandas/library behaviour is modelled at its observable boundary: a cell is
either missing, a value that `pd.to_datetime(_, errors='coerce')` parses to a
date (represented as a day number), a numeric value, or unparseable text; a
file read either yields a sheet (header plus cell rows) or raises.
-/

/-- `leadSeg pat hay` is true when `pat` is a leading segment of `hay`. -/
def leadSeg : List Char → List Char → Bool
  | [], _ => true
  | _ :: _, [] => false
  | a :: as, b :: bs => a == b && leadSeg as bs

/-- `hasSeg pat hay` is true when `pat` occurs contiguously inside `hay`. -/
def hasSeg (pat : List Char) : List Char → Bool
  | [] => pat.isEmpty
  | c :: cs => leadSeg pat (c :: cs) || hasSeg pat cs

/-- Substring containment, as the glob pattern `*pat*` tests it. -/
def strHas (hay pat : String) : Bool := hasSeg pat.toList hay.toList

/-- `strEnds hay pat` is true when `hay` ends with `pat` (glob `*.ext`). -/
def strEnds (hay pat : String) : Bool := leadSeg pat.toList.reverse hay.toList.reverse

/-- `city_name[:8]`: the first 8 characters of the city name. -/
def city8 (c : String) : String := String.mk (c.toList.take 8)

/-- A spreadsheet cell as pandas sees it after reading: missing (`NaN`),
a value that parses as a date, a numeric value, or unparseable text. -/
inductive Cell where
  | empty : Cell
  | dateVal : Int → Cell
  | numVal : Rat → Cell
  | text : String → Cell
deriving DecidableEq, Repr

/-- `pd.to_datetime(x, errors='coerce')` on one cell: a date for parseable
cells, `NaT` (here `none`) for missing or unparseable ones. -/
def cellToDate : Cell → Option Int
  | Cell.dateVal d => some d
  | _ => none

/-- Whether `dropna` treats the cell as missing. -/
def Cell.isNA : Cell → Bool
  | Cell.empty => true
  | _ => false

/-- Calendar year of a day number (days since 1970-01-01), the value of
`Series.dt.year` (civil-from-days). -/
def yearOf (z : Int) : Int :=
  let days := z + 719468
  let era := Int.fdiv days 146097
  let doe := days - era * 146097
  let yoe := Int.fdiv (doe - Int.fdiv doe 1460 + Int.fdiv doe 36524 - Int.fdiv doe 146096) 365
  let doy := doe - (365 * yoe + Int.fdiv yoe 4 - Int.fdiv yoe 100)
  let mp := Int.fdiv (5 * doy + 2) 153
  let m := if mp < 10 then mp + 3 else mp - 9
  (yoe + era * 400) + (if m ≤ 2 then 1 else 0)

/-- The week period of a day number under pandas frequency `'W'` (weeks
running Monday to Sunday; day 4 = Monday 1970-01-05 starts week 0). -/
def weekOf (d : Int) : Int := Int.fdiv (d - 4) 7

/-- The result of `pd.read_excel` on one file: the column header and the
rows of cells. -/
structure Sheet where
  header : List String
  rows : List (List Cell)
deriving DecidableEq, Repr

instance {α β : Type} [DecidableEq α] [DecidableEq β] : DecidableEq (Except α β) := fun x y =>
  match x, y with
  | Except.error a, Except.error b =>
    if h : a = b then Decidable.isTrue (by rw [h])
    else Decidable.isFalse (by intro hh; cases hh; exact h rfl)
  | Except.error _, Except.ok _ => Decidable.isFalse (by intro h; cases h)
  | Except.ok _, Except.error _ => Decidable.isFalse (by intro h; cases h)
  | Except.ok a, Except.ok b =>
    if h : a = b then Decidable.isTrue (by rw [h])
    else Decidable.isFalse (by intro hh; cases hh; exact h rfl)

/-- An entry of the data folder: a file name together with what reading it
as a spreadsheet yields (`Except.error` models a raised exception). -/
structure XFile where
  name : String
  content : Except String Sheet
deriving DecidableEq, Repr

/-- The allergen-column argument: a 0-based index or a column name. -/
inductive ColSel where
  | idx : Int → ColSel
  | name : String → ColSel
deriving DecidableEq, Repr

/-- A cleaned output row of `extract_alnus_data`: columns
`date`, `year`, `allergen`. -/
structure Row where
  date : Int
  year : Int
  allergen : Cell
deriving DecidableEq, Repr

/-- Cell `i` of a row (a DataFrame is rectangular; a missing position reads
as `NaN`). -/
def getCell (r : List Cell) (i : Nat) : Cell := r.getD i Cell.empty

/-- One row of `df.iloc[:, [0, ec]]` after `to_datetime`, adding `year`, and
`dropna`: kept exactly when the date parses and the allergen is present. -/
def cleanRow (ec : Nat) (r : List Cell) : Option Row :=
  match cellToDate (getCell r 0) with
  | none => none
  | some d => if (getCell r ec).isNA then none else some ⟨d, yearOf d, getCell r ec⟩

/-- The cleaned two-column series of one sheet for allergen column `ec`. -/
def cleanSheet (sheet : Sheet) (ec : Nat) : List Row :=
  sheet.rows.filterMap (cleanRow ec)

/-- Resolve a (possibly negative, Python-style) column index against a
column count; `none` models the `IndexError` that `iloc` raises. -/
def pyColIndex (len : Nat) (ci : Int) : Option Nat :=
  if 0 ≤ ci then some ci.toNat
  else if ci.natAbs ≤ len then some (len - ci.natAbs) else none

/-- Processing of one matched Excel file by `extract_alnus_data`:
`none` when the file is skipped (read error, named column absent, column
index out of range), otherwise the cleaned rows. -/
def processFile (sel : ColSel) (f : XFile) : Option (List Row) :=
  match f.content with
  | Except.error _ => none
  | Except.ok sheet =>
    let ci? : Option Int :=
      match sel with
      | ColSel.name s =>
        match sheet.header.findIdx? (fun h => h == s) with
        | some j => some (j : Int)
        | none => none
      | ColSel.idx i => some i
    match ci? with
    | none => none
    | some ci =>
      if (sheet.header.length : Int) > max 0 ci then
        match pyColIndex sheet.header.length ci with
        | some ec => some (cleanSheet sheet ec)
        | none => none
      else none

/-- The files `glob(f'*{city}*.xlsx') + glob(f'*{city}*.xls')` selects from
the folder, with the city name truncated to 8 characters. -/
def matchedFiles (folder : List XFile) (city : String) : List XFile :=
  let c := city8 city
  folder.filter (fun f => strEnds f.name ".xlsx" && strHas f.name c)
    ++ folder.filter (fun f => strEnds f.name ".xls" && strHas f.name c)

/-- Concatenation (`pd.concat`) of the cleaned series of a file list, the
skipped files contributing nothing; `[]` is the empty DataFrame. -/
def extractFrom (files : List XFile) (sel : ColSel) : List Row :=
  (files.filterMap (processFile sel)).flatten

/-- `extract_alnus_data(folder_path, city_name, allergen_col)`:
`none` for the allergen column defaults to index 6. -/
def extract_alnus_data (folder : List XFile) (city : String) (sel : Option ColSel) : List Row :=
  extractFrom (matchedFiles folder city) (sel.getD (ColSel.idx 6))

/-- `get_available_columns(folder_path, city_name)`: all but the first
column name of the first matched readable file. -/
def get_available_columns (folder : List XFile) (city : String) : List String :=
  match matchedFiles folder city with
  | [] => []
  | f :: _ =>
    match f.content with
    | Except.error _ => []
    | Except.ok sheet => sheet.header.drop 1

/-- The local data folder: whether the directory exists and the file names
in it. -/
structure FS where
  dirExists : Bool
  files : List String
deriving DecidableEq, Repr

/-- Whether a file list holds at least one Excel file (`*.xlsx` or `*.xls`). -/
def hasExcel (files : List String) : Bool :=
  (files.filter (fun n => strEnds n ".xlsx")).length
    + (files.filter (fun n => strEnds n ".xls")).length > 0

/-- The messages `ensure_data_folder` prints. -/
inductive Msg where
  | foundFiles : Msg
  | downloading : Msg
  | extracted : Msg
  | warnNoExcelAfter : Msg
  | errDownload : Msg
deriving DecidableEq, Repr

/-- What one call of `ensure_data_folder` does: its return value, whether it
attempted the download-and-unzip step, and the messages it printed. -/
structure EnsureResult where
  ok : Bool
  attempted : Bool
  msgs : List Msg
deriving DecidableEq, Repr

/-- `ensure_data_folder(data_folder, force_refresh)`. The download-and-unzip
step is modelled by `fetch`: an exception, or the folder's file list after
extraction. -/
def ensure_data_folder (fs : FS) (forceRefresh : Bool) (fetch : Except String (List String)) :
    EnsureResult :=
  if fs.dirExists && !forceRefresh && hasExcel fs.files then
    ⟨true, false, [Msg.foundFiles]⟩
  else
    match fetch with
    | Except.error _ => ⟨false, true, [Msg.downloading, Msg.errDownload]⟩
    | Except.ok newFiles =>
      if hasExcel newFiles then ⟨true, true, [Msg.downloading, Msg.extracted, Msg.foundFiles]⟩
      else ⟨false, true, [Msg.downloading, Msg.warnNoExcelAfter]⟩

/-- Outcome of the `__main__` block: exit status (when it exits early),
whether extraction ran, whether plotting ran, and whether the
"Cannot proceed without data files." message was printed. -/
structure MainRes where
  exitCode : Option Nat
  extracted : Bool
  plotted : Bool
  printedCannotProceed : Bool
deriving DecidableEq, Repr

/-- The `__main__` control flow around data availability: on a failed
`ensure_data_folder` it prints and exits with status 1 before any
extraction or plotting; otherwise it extracts and plots when the extracted
DataFrame is non-empty. -/
def pollenMain (fs : FS) (forceRefresh : Bool) (fetch : Except String (List String))
    (folder : List XFile) (city : String) (sel : Option ColSel) : MainRes :=
  if (ensure_data_folder fs forceRefresh fetch).ok then
    if (extract_alnus_data folder city sel).isEmpty then ⟨none, true, false, false⟩
    else ⟨none, true, true, false⟩
  else ⟨some 1, false, false, true⟩

/-- A row of the DataFrame handed to `plot_allergen_by_week`: columns
`date`, `year`, `allergen`. -/
structure PRow where
  date : Int
  year : Int
  allergen : Rat
deriving DecidableEq, Repr

/-- `l.foldl max a`: the maximum of `a` and the elements of `l`. -/
def listMax (a : Int) (l : List Int) : Int := l.foldl max a

/-- `df['year'].max()` on a non-empty DataFrame (0 on an empty one, which
the plot function never reaches). -/
def maxYear : List PRow → Int
  | [] => 0
  | r :: rs => listMax r.year (rs.map PRow.year)

/-- `df[df['year'] >= max_year - (num_years - 1)]`: the rows of the last
`num_years` calendar years. -/
def yearFiltered (rows : List PRow) (numYears : Int) : List PRow :=
  rows.filter (fun r => decide (maxYear rows - (numYears - 1) ≤ r.year))

/-- Arithmetic mean of a list of rationals. -/
def listMean (l : List Rat) : Rat := l.sum / (l.length : Rat)

/-- `df.sort_values('date')` then `groupby(week)['allergen'].mean()`:
the per-week mean series, indexed by the sorted distinct weeks. -/
def weeklyMean (rows : List PRow) : List (Int × Rat) :=
  let sorted := rows.mergeSort (fun a b => decide (a.date ≤ b.date))
  let keys := ((sorted.map (fun r => weekOf r.date)).dedup).mergeSort (fun a b => decide (a ≤ b))
  keys.map (fun w =>
    (w, listMean ((sorted.filter (fun r => decide (weekOf r.date = w))).map PRow.allergen)))

/-- The rendering effects of `plot_allergen_by_week`, in order: saving the
chart of the plotted points to a file, and showing it interactively. -/
inductive PlotEff where
  | saved : String → List (Int × Rat) → PlotEff
  | shown : List (Int × Rat) → PlotEff
deriving DecidableEq, Repr

/-- `plot_allergen_by_week(df, ..., num_years, ..., output_file)`: on an
empty DataFrame it only prints and returns; otherwise it computes the
weekly means of the year-filtered rows, saves the chart, then shows it. -/
def plot_allergen_by_week (rows : List PRow) (numYears : Int) (out : String) : List PlotEff :=
  if rows.isEmpty then []
  else
    let pts := weeklyMean (yearFiltered rows numYears)
    [PlotEff.saved out pts, PlotEff.shown pts]

/-! ## Helper lemmas -/

theorem listMean_perm {l₁ l₂ : List Rat} (h : l₁.Perm l₂) : listMean l₁ = listMean l₂ := by
  unfold listMean
  rw [h.sum_eq, h.length_eq]

theorem city8_idem (c : String) : city8 (city8 c) = city8 c := by
  unfold city8
  show String.mk (List.take 8 (List.take 8 c.toList)) = String.mk (List.take 8 c.toList)
  rw [List.take_take]
  norm_num

theorem matchedFiles_city8 (folder : List XFile) (city : String) :
    matchedFiles folder (city8 city) = matchedFiles folder city := by
  unfold matchedFiles
  rw [city8_idem]

theorem extractFrom_eq_map (files : List XFile) (sel : ColSel) :
    extractFrom files sel = (files.map (fun f => (processFile sel f).getD [])).flatten := by
  induction files with
  | nil => rfl
  | cons f fs ih =>
    unfold extractFrom at ih ⊢
    cases h : processFile sel f with
    | none => simp [List.filterMap_cons, h, ih]
    | some l => simp [List.filterMap_cons, h, ih]

theorem le_listMax (a : Int) (l : List Int) : a ≤ listMax a l := by
  induction l generalizing a with
  | nil => exact le_refl a
  | cons b t ih =>
    have h1 : listMax a (b :: t) = listMax (max a b) t := rfl
    rw [h1]
    exact le_trans (le_max_left a b) (ih (max a b))

theorem listMax_cases (a : Int) (l : List Int) : listMax a l = a ∨ listMax a l ∈ l := by
  induction l generalizing a with
  | nil => exact Or.inl rfl
  | cons b t ih =>
    have h1 : listMax a (b :: t) = listMax (max a b) t := rfl
    rw [h1]
    rcases ih (max a b) with h | h
    · rcases max_choice a b with hm | hm
      · exact Or.inl (by rw [h, hm])
      · exact Or.inr (by rw [h, hm]; exact List.mem_cons_self b t)
    · exact Or.inr (List.mem_cons_of_mem b h)

theorem mem_le_listMax (x a : Int) (l : List Int) (hx : x ∈ l) : x ≤ listMax a l := by
  induction l generalizing a with
  | nil => cases hx
  | cons b t ih =>
    have h1 : listMax a (b :: t) = listMax (max a b) t := rfl
    rw [h1]
    rcases List.mem_cons.mp hx with rfl | h
    · exact le_trans (le_max_right a x) (le_listMax (max a x) t)
    · exact ih (max a b) h

theorem maxYear_ge (rows : List PRow) (r : PRow) (h : r ∈ rows) : r.year ≤ maxYear rows := by
  cases rows with
  | nil => cases h
  | cons r0 rs =>
    unfold maxYear
    rcases List.mem_cons.mp h with rfl | h
    · exact le_listMax r.year (rs.map PRow.year)
    · exact mem_le_listMax r.year r0.year (rs.map PRow.year) (List.mem_map_of_mem PRow.year h)

theorem maxYear_mem (rows : List PRow) (h : rows ≠ []) :
    ∃ r ∈ rows, r.year = maxYear rows := by
  cases rows with
  | nil => exact absurd rfl h
  | cons r0 rs =>
    show ∃ r ∈ r0 :: rs, r.year = listMax r0.year (List.map PRow.year rs)
    rcases listMax_cases r0.year (rs.map PRow.year) with hm | hm
    · exact ⟨r0, List.mem_cons_self r0 rs, hm.symm⟩
    · obtain ⟨r, hr, hy⟩ := List.mem_map.mp hm
      exact ⟨r, List.mem_cons_of_mem r0 hr, hy⟩

theorem mem_yearFiltered (rows : List PRow) (numYears : Int) (r : PRow) :
    r ∈ yearFiltered rows numYears ↔
      (r ∈ rows ∧ maxYear rows - (numYears - 1) ≤ r.year) := by
  unfold yearFiltered
  rw [List.mem_filter]
  simp only [decide_eq_true_eq]

theorem weeklyMean_spec (L : List PRow) (w : Int) (v : Rat) :
    (w, v) ∈ weeklyMean L ↔
      ((∃ r ∈ L, weekOf r.date = w) ∧
        v = listMean ((L.filter (fun r => decide (weekOf r.date = w))).map PRow.allergen)) := by
  have hperm : (L.mergeSort (fun a b => decide (a.date ≤ b.date))).Perm L :=
    List.mergeSort_perm L _
  have hmean : ∀ w' : Int,
      listMean (((L.mergeSort (fun a b => decide (a.date ≤ b.date))).filter
          (fun r => decide (weekOf r.date = w'))).map PRow.allergen)
        = listMean ((L.filter (fun r => decide (weekOf r.date = w'))).map PRow.allergen) :=
    fun w' => listMean_perm ((hperm.filter _).map PRow.allergen)
  unfold weeklyMean
  constructor
  · intro hmem
    simp only [List.mem_map] at hmem
    obtain ⟨w', hw', heq⟩ := hmem
    injection heq with h1 h2
    subst h1
    subst h2
    have hk1 : w' ∈ ((L.mergeSort (fun a b => decide (a.date ≤ b.date))).map
        (fun r => weekOf r.date)).dedup := (List.mergeSort_perm _ _).mem_iff.mp hw'
    have hk2 := List.mem_dedup.mp hk1
    obtain ⟨r, hr, hrw⟩ := List.mem_map.mp hk2
    exact ⟨⟨r, hperm.mem_iff.mp hr, hrw⟩, hmean w'⟩
  · rintro ⟨⟨r, hrL, hrw⟩, hv⟩
    simp only [List.mem_map]
    refine ⟨w, ?_, ?_⟩
    · apply (List.mergeSort_perm _ _).mem_iff.mpr
      apply List.mem_dedup.mpr
      exact List.mem_map.mpr ⟨r, hperm.mem_iff.mpr hrL, hrw⟩
    · rw [hmean w, ← hv]

/-! ## Concrete data for witnesses and counterexamples -/

/-- A small sheet: a good row, an unparseable date, a missing allergen,
another good row. -/
def wSheet : Sheet :=
  ⟨["Date", "A", "ALNUS"],
   [[Cell.dateVal 0, Cell.numVal 1, Cell.numVal 10],
    [Cell.text "bad", Cell.numVal 2, Cell.numVal 20],
    [Cell.dateVal 7, Cell.numVal 3, Cell.empty],
    [Cell.dateVal 8, Cell.numVal 4, Cell.numVal 30]]⟩

/-- A readable matched file. -/
def wFile : XFile := ⟨"OP_NICE_2020.xlsx", Except.ok wSheet⟩

/-- A matched file whose read raises. -/
def wBadFile : XFile := ⟨"OP_NICE_2019.xls", Except.error "boom"⟩

/-- A small plot input. -/
def wRows : List PRow := [⟨8, 1970, 30⟩, ⟨0, 1970, 10⟩, ⟨7, 1970, 20⟩]

/-- A one-row, two-column sheet. -/
def mSheet : Sheet := ⟨["Date", "ALNUS"], [[Cell.dateVal 0, Cell.numVal 10]]⟩

/-- A file whose name holds the first 8 characters of `MONTPELLIER` but not
the full city name. -/
def mFile : XFile := ⟨"OP_MONTPELL_2020.xlsx", Except.ok mSheet⟩

/-! ## Claims -/

/-- C1: for every non-empty input DataFrame, `plot_allergen_by_week` plots
the year-filtered, date-sorted rows grouped by the calendar week of their
date, and the value plotted for a week is the arithmetic mean of the
allergen values of exactly the year-filtered rows whose date falls in that
week. -/
theorem C1_weekly_mean_correct (rows : List PRow) (numYears : Int) (out : String)
    (h : rows ≠ []) :
    plot_allergen_by_week rows numYears out =
      [PlotEff.saved out (weeklyMean (yearFiltered rows numYears)),
       PlotEff.shown (weeklyMean (yearFiltered rows numYears))] ∧
    (∀ w v, (w, v) ∈ weeklyMean (yearFiltered rows numYears) ↔
      ((∃ r ∈ yearFiltered rows numYears, weekOf r.date = w) ∧
        v = listMean (((yearFiltered rows numYears).filter
            (fun r => decide (weekOf r.date = w))).map PRow.allergen))) := by
  constructor
  · have hne : rows.isEmpty = false := by simpa [List.isEmpty_iff] using h
    simp [plot_allergen_by_week, hne]
  · intro w v
    exact weeklyMean_spec _ w v

theorem C1_weekly_mean_correct_witness :
    ((-1 : Int), (10 : Rat)) ∈ weeklyMean (yearFiltered wRows 10) := by
  apply ((C1_weekly_mean_correct wRows 10 "out.png" (by decide)).2 (-1) 10).mpr
  constructor
  · exact ⟨⟨0, 1970, 10⟩, by decide, by decide⟩
  · have hl : ((yearFiltered wRows 10).filter
        (fun r => decide (weekOf r.date = -1))).map PRow.allergen = [(10 : Rat)] := by decide
    rw [hl]
    norm_num [listMean]

/-- C2: per successfully read file, a row is dropped when its date is
missing or unparseable (`NaT`) or its allergen value is missing, and every
row with a parseable date and a present allergen value is retained. -/
theorem C2_dropna_exact (sheet : Sheet) (ec : Nat) :
    (∀ r ∈ sheet.rows, ∀ d, cellToDate (getCell r 0) = some d →
        (getCell r ec).isNA = false →
        (⟨d, yearOf d, getCell r ec⟩ : Row) ∈ cleanSheet sheet ec) ∧
    (∀ x ∈ cleanSheet sheet ec, ∃ r ∈ sheet.rows,
        cellToDate (getCell r 0) = some x.date ∧ (getCell r ec).isNA = false ∧
        x.year = yearOf x.date ∧ x.allergen = getCell r ec) := by
  constructor
  · intro r hr d hd hna
    refine List.mem_filterMap.mpr ⟨r, hr, ?_⟩
    simp [cleanRow, hd, hna]
  · intro x hx
    obtain ⟨r, hr, hcr⟩ := List.mem_filterMap.mp hx
    refine ⟨r, hr, ?_⟩
    unfold cleanRow at hcr
    split at hcr
    · cases hcr
    · rename_i d heq
      split at hcr
      · cases hcr
      · rename_i hna
        injection hcr with hcr
        subst hcr
        exact ⟨heq, by simpa using hna, rfl, rfl⟩

theorem C2_dropna_exact_witness :
    (⟨0, 1970, Cell.numVal 10⟩ : Row) ∈ cleanSheet wSheet 2 :=
  (C2_dropna_exact wSheet 2).1 [Cell.dateVal 0, Cell.numVal 1, Cell.numVal 10]
    (by decide) 0 rfl rfl

/-- C7: on every non-empty input DataFrame, the chart of the weekly means
is saved to the output file and then shown interactively, in that order. -/
theorem C7_save_then_show (rows : List PRow) (numYears : Int) (out : String)
    (h : rows ≠ []) :
    plot_allergen_by_week rows numYears out =
      [PlotEff.saved out (weeklyMean (yearFiltered rows numYears)),
       PlotEff.shown (weeklyMean (yearFiltered rows numYears))] := by
  have hne : rows.isEmpty = false := by simpa [List.isEmpty_iff] using h
  simp [plot_allergen_by_week, hne]

theorem C7_save_then_show_witness :
    plot_allergen_by_week wRows 10 "plot.png" =
      [PlotEff.saved "plot.png" (weeklyMean (yearFiltered wRows 10)),
       PlotEff.shown (weeklyMean (yearFiltered wRows 10))] :=
  C7_save_then_show wRows 10 "plot.png" (by decide)

/-- C8: both `extract_alnus_data` and `get_available_columns` use only the
first 8 characters of the city name in the filename filter, and any Excel
file whose name holds that 8-character slice is selected. -/
theorem C8_city_name_truncated (folder : List XFile) (city : String) (sel : Option ColSel) :
    extract_alnus_data folder city sel = extract_alnus_data folder (city8 city) sel ∧
    get_available_columns folder city = get_available_columns folder (city8 city) ∧
    (∀ f ∈ folder, strHas f.name (city8 city) = true →
      strEnds f.name ".xlsx" = true ∨ strEnds f.name ".xls" = true →
      f ∈ matchedFiles folder city) := by
  refine ⟨?_, ?_, ?_⟩
  · unfold extract_alnus_data
    rw [matchedFiles_city8]
  · unfold get_available_columns
    rw [matchedFiles_city8]
  · intro f hf hhas hend
    simp only [matchedFiles]
    rcases hend with he | he
    · exact List.mem_append_left _ (List.mem_filter.mpr ⟨hf, by simp [he, hhas]⟩)
    · exact List.mem_append_right _ (List.mem_filter.mpr ⟨hf, by simp [he, hhas]⟩)

theorem C8_city_name_truncated_witness :
    mFile ∈ matchedFiles [mFile] "MONTPELLIER" :=
  (C8_city_name_truncated [mFile] "MONTPELLIER" none).2.2 mFile (by decide) (by decide)
    (Or.inl (by decide))

/-- C3 counterexample: for the city name `MONTPELLIER` (11 characters), the
file `OP_MONTPELL_2020.xlsx` does not contain the full city name in its
name, yet it is selected and processed, and the extraction is non-empty —
so the selection is not "exactly the files whose filename contains the
given city name". -/
theorem C3_counterexample :
    strHas "OP_MONTPELL_2020.xlsx" "MONTPELLIER" = false ∧
    matchedFiles [mFile] "MONTPELLIER" = [mFile] ∧
    extract_alnus_data [mFile] "MONTPELLIER" (some (ColSel.idx 1)) =
      [⟨0, 1970, Cell.numVal 10⟩] := by
  refine ⟨by decide, by decide, ?_⟩
  show cleanSheet mSheet 1 ++ [] = [⟨0, 1970, Cell.numVal 10⟩]
  decide

/-- C3 (amended): `extract_alnus_data` processes exactly the `.xlsx` and
`.xls` files in the folder whose filename contains the first 8 characters
of the given city name, and no other files; if no such file exists it
returns an empty DataFrame. -/
theorem C3_matched_files (folder : List XFile) (city : String) (sel : Option ColSel) :
    (∀ f, f ∈ matchedFiles folder city ↔
      (f ∈ folder ∧
        (strEnds f.name ".xlsx" = true ∨ strEnds f.name ".xls" = true) ∧
        strHas f.name (city8 city) = true)) ∧
    (matchedFiles folder city = [] → extract_alnus_data folder city sel = []) := by
  constructor
  · intro f
    simp only [matchedFiles, List.mem_append, List.mem_filter, Bool.and_eq_true,
      Bool.or_eq_true]
    tauto
  · intro h
    unfold extract_alnus_data
    rw [h]
    rfl

theorem C3_matched_files_witness :
    (mFile ∈ matchedFiles [mFile] "MONTPELL") ∧
    extract_alnus_data [] "NICE" none = [] :=
  ⟨(C3_matched_files [mFile] "MONTPELL" none).1 mFile |>.mpr
      ⟨by decide, Or.inl (by decide), by decide⟩,
   (C3_matched_files [] "NICE" none).2 (by decide)⟩

/-- C4: per successfully read file with enough columns, exactly two source
columns feed the result — column 0 as `date` and the chosen allergen
column (0-based index, or the position of the name when present) as
`allergen` — and the per-file series are concatenated in file order. -/
theorem C4_two_columns_concat :
    (∀ folder city sel, extract_alnus_data folder city (some sel) =
      ((matchedFiles folder city).map (fun f => (processFile sel f).getD [])).flatten) ∧
    (∀ n hdr rws s (j : Nat), hdr.findIdx? (fun h => h == s) = some j →
      processFile (ColSel.name s) ⟨n, Except.ok ⟨hdr, rws⟩⟩ =
        processFile (ColSel.idx (j : Int)) ⟨n, Except.ok ⟨hdr, rws⟩⟩) ∧
    (∀ n hdr rws (ci : Int), 0 ≤ ci → max 0 ci < (hdr.length : Int) →
      processFile (ColSel.idx ci) ⟨n, Except.ok ⟨hdr, rws⟩⟩ =
        some (rws.filterMap (cleanRow ci.toNat))) ∧
    (∀ ec r r', getCell r 0 = getCell r' 0 → getCell r ec = getCell r' ec →
      cleanRow ec r = cleanRow ec r') := by
  refine ⟨?_, ?_, ?_, ?_⟩
  · intro folder city sel
    unfold extract_alnus_data
    exact extractFrom_eq_map (matchedFiles folder city) sel
  · intro n hdr rws s j h
    simp only [processFile]
    rw [h]
  · intro n hdr rws ci h0 hlt
    simp only [processFile]
    rw [if_pos hlt]
    unfold pyColIndex
    rw [if_pos h0]
    rfl
  · intro ec r r' h0 hec
    unfold cleanRow
    rw [h0, hec]

theorem C4_two_columns_concat_witness :
    processFile (ColSel.name "ALNUS") ⟨"f.xlsx", Except.ok wSheet⟩ =
      processFile (ColSel.idx 2) ⟨"f.xlsx", Except.ok wSheet⟩ ∧
    processFile (ColSel.idx 2) ⟨"f.xlsx", Except.ok wSheet⟩ =
      some (wSheet.rows.filterMap (cleanRow 2)) :=
  ⟨C4_two_columns_concat.2.1 "f.xlsx" wSheet.header wSheet.rows "ALNUS" 2 (by decide),
   C4_two_columns_concat.2.2.1 "f.xlsx" wSheet.header wSheet.rows 2 (by decide) (by decide)⟩

/-- C10: a file whose read raises, or that lacks the named column, is
skipped and extraction continues with the remaining files; the result holds
exactly the cleaned rows of the successfully processed files and is empty
only when no file yields data. -/
theorem C10_skip_bad_files (sel : ColSel) :
    (∀ f e, f.content = Except.error e → processFile sel f = none) ∧
    (∀ n hdr rws s, hdr.findIdx? (fun h => h == s) = none →
      processFile (ColSel.name s) ⟨n, Except.ok ⟨hdr, rws⟩⟩ = none) ∧
    (∀ l₁ l₂ f, processFile sel f = none →
      extractFrom (l₁ ++ f :: l₂) sel = extractFrom (l₁ ++ l₂) sel) ∧
    (∀ files x, x ∈ extractFrom files sel ↔
      ∃ f ∈ files, ∃ out, processFile sel f = some out ∧ x ∈ out) ∧
    (∀ files, extractFrom files sel = [] ↔
      ∀ f ∈ files, ∀ out, processFile sel f = some out → out = []) := by
  refine ⟨?_, ?_, ?_, ?_, ?_⟩
  · intro f e h
    cases f with
    | mk n c =>
      cases h
      rfl
  · intro n hdr rws s h
    simp [processFile, h]
  · intro l₁ l₂ f h
    unfold extractFrom
    rw [List.filterMap_append, List.filterMap_append, List.filterMap_cons, h]
  · intro files x
    unfold extractFrom
    simp only [List.mem_flatten, List.mem_filterMap]
    constructor
    · rintro ⟨l, ⟨f, hf, hpf⟩, hx⟩
      exact ⟨f, hf, l, hpf, hx⟩
    · rintro ⟨f, hf, l, hpf, hx⟩
      exact ⟨l, ⟨f, hf, hpf⟩, hx⟩
  · intro files
    unfold extractFrom
    rw [List.flatten_eq_nil_iff]
    constructor
    · intro h f hf out hout
      exact h out (List.mem_filterMap.mpr ⟨f, hf, hout⟩)
    · intro h l hl
      obtain ⟨f, hf, hpf⟩ := List.mem_filterMap.mp hl
      exact h f hf l hpf

theorem C10_skip_bad_files_witness :
    processFile (ColSel.idx 2) wBadFile = none ∧
    extractFrom [wBadFile, wFile] (ColSel.idx 2) = extractFrom [wFile] (ColSel.idx 2) ∧
    processFile (ColSel.name "BETULA") ⟨"f.xlsx", Except.ok wSheet⟩ = none :=
  ⟨(C10_skip_bad_files (ColSel.idx 2)).1 wBadFile "boom" rfl,
   (C10_skip_bad_files (ColSel.idx 2)).2.2.1 [] [wFile] wBadFile
     ((C10_skip_bad_files (ColSel.idx 2)).1 wBadFile "boom" rfl),
   (C10_skip_bad_files (ColSel.idx 2)).2.1 "f.xlsx" wSheet.header wSheet.rows "BETULA"
     (by decide)⟩

/-- C5: `ensure_data_folder` skips the download exactly when no refresh is
forced, the data folder exists and it holds at least one Excel file, and it
then returns True; in every other case it attempts the download step. -/
theorem C5_download_condition (fs : FS) (force : Bool) (fetch : Except String (List String)) :
    ((ensure_data_folder fs force fetch).attempted = false ↔
      (fs.dirExists = true ∧ force = false ∧ hasExcel fs.files = true)) ∧
    ((fs.dirExists = true ∧ force = false ∧ hasExcel fs.files = true) →
      ensure_data_folder fs force fetch = ⟨true, false, [Msg.foundFiles]⟩) := by
  cases hd : fs.dirExists <;> cases hf : force <;> cases he : hasExcel fs.files <;>
    cases fetch <;> simp [ensure_data_folder, hd, hf, he] <;> split <;> simp

theorem C5_download_condition_witness :
    (ensure_data_folder ⟨true, ["a.xlsx"]⟩ false (Except.error "e")).attempted = false ∧
    ensure_data_folder ⟨true, ["a.xlsx"]⟩ false (Except.error "e") =
      ⟨true, false, [Msg.foundFiles]⟩ :=
  ⟨(C5_download_condition ⟨true, ["a.xlsx"]⟩ false (Except.error "e")).1.mpr
      ⟨rfl, rfl, by decide⟩,
   (C5_download_condition ⟨true, ["a.xlsx"]⟩ false (Except.error "e")).2
      ⟨rfl, rfl, by decide⟩⟩

/-- C6: when the download step raises, or no Excel file is present after
extraction, `ensure_data_folder` prints an error message and returns False,
and the main script then prints its message and exits with status 1 without
attempting extraction or plotting. -/
theorem C6_failure_aborts (fs : FS) (force : Bool) (fetch : Except String (List String))
    (folder : List XFile) (city : String) (sel : Option ColSel) :
    (∀ e, fetch = Except.error e → (ensure_data_folder fs force fetch).attempted = true →
      (ensure_data_folder fs force fetch).ok = false ∧
      Msg.errDownload ∈ (ensure_data_folder fs force fetch).msgs) ∧
    (∀ nf, fetch = Except.ok nf → (ensure_data_folder fs force fetch).attempted = true →
      hasExcel nf = false →
      (ensure_data_folder fs force fetch).ok = false ∧
      Msg.warnNoExcelAfter ∈ (ensure_data_folder fs force fetch).msgs) ∧
    ((ensure_data_folder fs force fetch).ok = false →
      pollenMain fs force fetch folder city sel = ⟨some 1, false, false, true⟩) := by
  refine ⟨?_, ?_, ?_⟩
  · rintro e rfl hatt
    by_cases hpre : (fs.dirExists && !force && hasExcel fs.files) = true
    · exact absurd hatt (by simp [ensure_data_folder, hpre])
    · simp [ensure_data_folder, hpre]
  · rintro nf rfl hatt hnf
    by_cases hpre : (fs.dirExists && !force && hasExcel fs.files) = true
    · exact absurd hatt (by simp [ensure_data_folder, hpre])
    · simp [ensure_data_folder, hpre, hnf]
  · intro hok
    simp [pollenMain, hok]

theorem C6_failure_aborts_witness :
    pollenMain ⟨false, []⟩ false (Except.error "e") [wFile] "NICE" none =
      ⟨some 1, false, false, true⟩ :=
  (C6_failure_aborts ⟨false, []⟩ false (Except.error "e") [wFile] "NICE" none).2.2 rfl

/-- C9: the plot is restricted to rows with `year ≥ max_year - (num_years - 1)`
where `max_year` is the largest year in the data, so at most `num_years`
distinct calendar years, ending at the most recent one, contribute. -/
theorem C9_year_window (rows : List PRow) (numYears : Int) (h : rows ≠ []) :
    (∀ r, r ∈ yearFiltered rows numYears ↔
      (r ∈ rows ∧ maxYear rows - (numYears - 1) ≤ r.year)) ∧
    (∀ r ∈ rows, r.year ≤ maxYear rows) ∧
    (∃ r ∈ rows, r.year = maxYear rows) ∧
    (0 ≤ numYears →
      (((yearFiltered rows numYears).map PRow.year).dedup.length : Int) ≤ numYears) := by
  refine ⟨mem_yearFiltered rows numYears, fun r hr => maxYear_ge rows r hr,
    maxYear_mem rows h, ?_⟩
  intro hn
  have hnd : (((yearFiltered rows numYears).map PRow.year).dedup).Nodup := List.nodup_dedup _
  have hsub : (((yearFiltered rows numYears).map PRow.year).dedup).toFinset ⊆
      Finset.Icc (maxYear rows - (numYears - 1)) (maxYear rows) := by
    intro y hy
    rw [List.mem_toFinset] at hy
    have hy' := List.mem_dedup.mp hy
    obtain ⟨r, hr, rfl⟩ := List.mem_map.mp hy'
    have h1 := (mem_yearFiltered rows numYears r).mp hr
    exact Finset.mem_Icc.mpr ⟨h1.2, maxYear_ge rows r h1.1⟩
  have hcard : (((yearFiltered rows numYears).map PRow.year).dedup).length ≤ numYears.toNat := by
    calc (((yearFiltered rows numYears).map PRow.year).dedup).length
        = (((yearFiltered rows numYears).map PRow.year).dedup).toFinset.card :=
          (List.toFinset_card_of_nodup hnd).symm
      _ ≤ (Finset.Icc (maxYear rows - (numYears - 1)) (maxYear rows)).card :=
          Finset.card_le_card hsub
      _ = (maxYear rows + 1 - (maxYear rows - (numYears - 1))).toNat := Int.card_Icc _ _
      _ = numYears.toNat := by congr 1; ring
  calc ((((yearFiltered rows numYears).map PRow.year).dedup).length : Int)
      ≤ (numYears.toNat : Int) := by exact_mod_cast hcard
    _ = numYears := Int.toNat_of_nonneg hn

theorem C9_year_window_witness :
    (((yearFiltered wRows 1).map PRow.year).dedup.length : Int) ≤ 1 :=
  (C9_year_window wRows 1 (by decide)).2.2.2 (by decide)
